import Mathlib

/-!
Verification of the HoneyPot scam-engagement pipeline.

The development shallowly embeds the two core source modules,
`app/core/intelligence_aggregator.py` and `app/core/orchestrator.py`.
External collaborators (the LLM client, the regex pattern objects, the
strategy and persona agents, the safety guard and the session manager)
are not part of the two modules; they are modelled as parameters, or,
where the specification pins down their behaviour, as definitions marked
as modelled from the spec.
-/

namespace HoneyPot

/-- A conversation message (`app.models.session_state.Message`):
sender tag plus text. Timestamps play no role in the verified code. -/
structure Message where
  sender : String
  text : String
deriving DecidableEq, Repr

/-- The artifact set (`app.models.intelligence.ExtractedIntelligence`):
five independent collections. -/
structure ExtractedIntelligence where
  bankAccounts : List String := []
  phoneNumbers : List String := []
  upiIds : List String := []
  phishingLinks : List String := []
  suspiciousKeywords : List String := []
deriving DecidableEq, Repr

/-- The empty artifact set, the default value `ExtractedIntelligence()`. -/
def emptyIntelligence : ExtractedIntelligence := {}

/-- The pattern library (`app.utils.regex_patterns.RegexPatterns`).
Each matcher maps a text to the list of raw matches, exactly the role
of `pattern.findall(text)` in the source. The concrete regexes live in
a file outside the verified modules, so the matchers stay abstract. -/
structure RegexPatterns where
  BANK_ACCOUNT : String → List String
  UPI_ID : String → List String
  PHONE_NUMBER : String → List String
  URL : String → List String

/-- Whether a character is removed by `re.sub(r'[-.\s]', '', s)`:
dash, dot, or Python whitespace. -/
def isSeparator (c : Char) : Bool :=
  c = '-' || c = '.' || c = ' ' || c = '\t' || c = '\n' ||
    c = '\r' || c = '\x0b' || c = '\x0c'

/-- Model of `re.sub(r'[-.\s]', '', s)`: delete every separator character. -/
def stripSeparators (s : String) : String :=
  String.mk (s.data.filter (fun c => !isSeparator c))

/-- Character-list version of a prefix test (Python `startswith`). -/
def headMatches : List Char → List Char → Bool
  | [], _ => true
  | _ :: _, [] => false
  | a :: as, b :: bs => a = b && headMatches as bs

/-- Model of `s.startswith(pre)` on the underlying character list. -/
def strStarts (s pre : String) : Bool := headMatches pre.data s.data

/-- Substring occurrence on character lists (Python `pat in s`). -/
def hasSub (pat : List Char) : List Char → Bool
  | [] => headMatches pat []
  | c :: cs => headMatches pat (c :: cs) || hasSub pat cs

/-- Model of `pat in s` for strings. -/
def strContains (s pat : String) : Bool := hasSub pat.data s.data

/-- Shape classification of an already separator-stripped phone
candidate, the if/elif chain of `_regex_extract_intelligence`
(lines 152-160 of `intelligence_aggregator.py`). -/
def classifyPhone (cleaned : String) : Option String :=
  if strStarts cleaned "+91" = true ∧ cleaned.length = 13 then
    some cleaned
  else if strStarts cleaned "91" = true ∧ cleaned.length = 12 then
    some ("+" ++ cleaned)
  else if strStarts cleaned "0" = true ∧ cleaned.length = 11 then
    some ("+91" ++ String.mk (cleaned.data.drop 1))
  else if strStarts cleaned "+" = false ∧ cleaned.length = 10 ∧
      (cleaned.data.headD ' ' = '6' ∨ cleaned.data.headD ' ' = '7' ∨
       cleaned.data.headD ' ' = '8' ∨ cleaned.data.headD ' ' = '9') then
    some ("+91" ++ cleaned)
  else
    none

/-- Normalization of one raw phone match: strip separators, then
classify; `none` models the silently dropped candidate (no branch of
the if/elif chain appends anything). -/
def normalizePhone (m : String) : Option String :=
  classifyPhone (stripSeparators m)

/-- Bank-account matches of one text, separator-stripped
(`re.sub(r'[-.\s]', '', acc) for acc in bank_accounts`). -/
def bankMatches (patterns : RegexPatterns) (t : String) : List String :=
  (patterns.BANK_ACCOUNT t).map stripSeparators

/-- Phone matches of one text after normalization; candidates whose
shape fits no branch are dropped. -/
def phoneMatches (patterns : RegexPatterns) (t : String) : List String :=
  (patterns.PHONE_NUMBER t).filterMap normalizePhone

/-- Model of `text.lower()` on the underlying character list. -/
def lowerStr (s : String) : String :=
  String.mk (s.data.map Char.toLower)

/-- Suspicious-keyword scan of one text:
`[k for k in SUSPICIOUS_KEYWORDS if k in text.lower()]`. -/
def keywordMatches (kws : List String) (t : String) : List String :=
  kws.filter (fun k => strContains (lowerStr t) k)

/-- Embedding of `IntelligenceAggregator._regex_extract_intelligence`: scan the
current message with all five matchers, scan every history message
with the bank, UPI, phone and URL matchers (the source's history loop
does not rescan keywords), concatenate current-first, and deduplicate
each collection (`list(set(...))`). -/
def regex_extract_intelligence (patterns : RegexPatterns)
    (kws : List String) (message : Message) (hist : List Message) :
    ExtractedIntelligence :=
  { bankAccounts :=
      (bankMatches patterns message.text ++
        hist.flatMap (fun m => bankMatches patterns m.text)).dedup
    upiIds :=
      (patterns.UPI_ID message.text ++
        hist.flatMap (fun m => patterns.UPI_ID m.text)).dedup
    phoneNumbers :=
      (phoneMatches patterns message.text ++
        hist.flatMap (fun m => phoneMatches patterns m.text)).dedup
    phishingLinks :=
      (patterns.URL message.text ++
        hist.flatMap (fun m => patterns.URL m.text)).dedup
    suspiciousKeywords := (keywordMatches kws message.text).dedup }

/-- Outcome of the primary LLM extraction as seen by
`extract_intelligence`: `none` when no client is configured,
`some (Except.error e)` when the call raises, `some (Except.ok none)`
when `_llm_extract_intelligence` returns no usable result (malformed
or empty response), `some (Except.ok (some i))` on success. -/
abbrev LLMExtraction := Option (Except String (Option ExtractedIntelligence))

/-- Embedding of `IntelligenceAggregator.extract_intelligence`: return the LLM
result when the primary method succeeds with a usable artifact set;
every other outcome degrades to the regex fallback. -/
def extract_intelligence (llm : LLMExtraction) (patterns : RegexPatterns)
    (kws : List String) (message : Message) (hist : List Message) :
    ExtractedIntelligence :=
  match llm with
  | some (Except.ok (some i)) => i
  | _ => regex_extract_intelligence patterns kws message hist

/-- Embedding of `Orchestrator._extract_intelligence_parallel`: run the extraction
step under a try/except; a raised exception yields the empty artifact
set instead of aborting the turn. The argument is the outcome of the
call to `intelligence_aggregator.extract_intelligence`. -/
def extract_intelligence_parallel
    (result : Except String ExtractedIntelligence) :
    ExtractedIntelligence :=
  match result with
  | Except.ok i => i
  | Except.error _ => emptyIntelligence

/-- Conversation goals (`app.models.strategy.ConversationGoal`). -/
inductive ConversationGoal where
  | CLARIFY
  | DELAY
  | ESCALATE
  | CONTINUE
  | WRAP_UP
deriving DecidableEq, Repr

/-- Strategy stage output (`app.models.strategy.StrategyDecision`). -/
structure StrategyDecision where
  goal : ConversationGoal
  should_engage : Bool
  reasoning : String
deriving DecidableEq, Repr

/-- Session state (`app.models.session_state.SessionState`), the
fields read or written by the orchestrator. -/
structure SessionState where
  sessionId : String
  conversationHistory : List Message
  intelligence : ExtractedIntelligence
  conversationEnded : Bool
  finalDecisionReason : Option String
  agentNotes : List String
deriving DecidableEq, Repr

/-- Embedding of `session_manager.add_agent_note`: append one note to the session
notes list. -/
def add_agent_note (s : SessionState) (note : String) : SessionState :=
  { s with agentNotes := s.agentNotes ++ [note] }

/-- Modelled from the spec: `session_manager.update_session` (its
source file is not part of the verified modules) records the incoming
message in the conversation history and stores the extracted artifacts
on the session; it touches no other field. -/
def update_session (s : SessionState) (m : Message)
    (intel : ExtractedIntelligence) : SessionState :=
  { s with conversationHistory := s.conversationHistory ++ [m]
           intelligence := intel }

/-- The fixed safe reply substituted by the safety-gate step. -/
def fallbackSentence : String :=
  "I\x27m not sure how to respond to that. Can you clarify?"

/-- The note components built by `Orchestrator._generate_fallback_notes`:
the decision reason when truthy, then the joined values of the bank,
phone, UPI and link collections, each only when non-empty. The
suspicious-keyword collection is not listed by the source. -/
def fallbackNoteParts (reason : Option String)
    (d : ExtractedIntelligence) : List String :=
  (match reason with
    | some r => if r ≠ "" then ["Scam detected: " ++ r] else []
    | none => []) ++
  (if d.bankAccounts ≠ [] then
    ["Extracted bank account(s): " ++
      String.intercalate ", " d.bankAccounts] else []) ++
  (if d.phoneNumbers ≠ [] then
    ["Extracted phone number(s): " ++
      String.intercalate ", " d.phoneNumbers] else []) ++
  (if d.upiIds ≠ [] then
    ["Extracted UPI ID(s): " ++
      String.intercalate ", " d.upiIds] else []) ++
  (if d.phishingLinks ≠ [] then
    ["Extracted phishing link(s): " ++
      String.intercalate ", " d.phishingLinks] else [])

/-- The summary notes appended by `_generate_fallback_notes`: one
joined note when any component exists, none otherwise. -/
def fallbackNoteList (reason : Option String)
    (d : ExtractedIntelligence) : List String :=
  if fallbackNoteParts reason d ≠ [] then
    [String.intercalate "; " (fallbackNoteParts reason d)]
  else []

/-- Embedding of `Orchestrator._generate_fallback_notes`: append the summary note
when at least one component is present, otherwise leave the session
unchanged. -/
def generate_fallback_notes (s : SessionState)
    (d : ExtractedIntelligence) : SessionState :=
  match fallbackNoteList s.finalDecisionReason d with
  | [] => s
  | note :: _ => add_agent_note s note

/-- Embedding of `Orchestrator._add_intelligence_notes`: when the LLM reasoning
note is available and truthy (non-empty), append it; otherwise fall
back to the rule-based notes. `llmNote = none` covers the missing
client, a raised call, and `_generate_reasoning_notes` returning
`None`. -/
def add_intelligence_notes (llmNote : Option String) (s : SessionState)
    (d : ExtractedIntelligence) : SessionState :=
  match llmNote with
  | some note =>
      if note ≠ "" then add_agent_note s note
      else generate_fallback_notes s d
  | none => generate_fallback_notes s d

/-- Python truthiness of a candidate response
(`if not response: return None`): `None` or the empty string. -/
def respFalsy : Option String → Bool
  | none => true
  | some s => s == ""

/-- The collaborator stages `Orchestrator.process_message` calls, as
one record of functions: the extraction outcome, the strategy agent,
the persona agent, the safety guard (validity flag plus rendered error
text) and the LLM reasoning-note outcome. -/
structure Stages where
  extractionResult : Except String ExtractedIntelligence
  decide_strategy : SessionState → Message → StrategyDecision
  generate_response : Message → List Message → StrategyDecision → Option String
  validate_response : String → Bool × String
  llmNote : Option String

/-- One turn result: the returned response, the session after the
turn, and which later stages actually ran. -/
structure TurnResult where
  response : Option String
  session : SessionState
  ranGeneration : Bool
  ranSafetyGate : Bool
  ranNotes : Bool
deriving Repr

/-- Embedding of `Orchestrator.process_message`: extraction, session update,
strategy, the engage/terminate check, persona generation, the
empty-response check, the safety gate with its fixed fallback and
violation note, the intelligence notes, and the WRAP_UP termination
update, in source order. -/
def process_message (cfg : Stages) (message : Message)
    (session : SessionState) : TurnResult :=
  let intelligence := extract_intelligence_parallel cfg.extractionResult
  let session1 := update_session session message intelligence
  let strategy_decision := cfg.decide_strategy session1 message
  if strategy_decision.should_engage = false then
    let session2 :=
      if strategy_decision.goal = ConversationGoal.WRAP_UP then
        { session1 with conversationEnded := true }
      else session1
    { response := none, session := session2,
      ranGeneration := false, ranSafetyGate := false, ranNotes := false }
  else
    let response0 :=
      cfg.generate_response message session1.conversationHistory
        strategy_decision
    if respFalsy response0 = true then
      { response := none, session := session1,
        ranGeneration := true, ranSafetyGate := false, ranNotes := false }
    else
      let r0 := response0.getD ""
      let verdict := cfg.validate_response r0
      let r1 := if verdict.1 = false then fallbackSentence else r0
      let session2 :=
        if verdict.1 = false then
          add_agent_note session1 ("Safety guard triggered: " ++ verdict.2)
        else session1
      let session3 := add_intelligence_notes cfg.llmNote session2 intelligence
      let session4 :=
        if strategy_decision.goal = ConversationGoal.WRAP_UP then
          { session3 with conversationEnded := true }
        else session3
      { response := some r1, session := session4,
        ranGeneration := true, ranSafetyGate := true, ranNotes := true }

/-- A pattern library whose matchers find nothing, for concrete
instantiations. -/
def noPatterns : RegexPatterns :=
  { BANK_ACCOUNT := fun _ => []
    UPI_ID := fun _ => []
    PHONE_NUMBER := fun _ => []
    URL := fun _ => [] }

/-- A pattern library whose bank matcher reports the same account
twice, once with separators and once without. -/
def dupBankPatterns : RegexPatterns :=
  { BANK_ACCOUNT := fun _ => ["1234-5678-9012-3456", "1234567890123456"]
    UPI_ID := fun _ => []
    PHONE_NUMBER := fun _ => []
    URL := fun _ => [] }

/-- A pattern library whose bank matcher reports one plain account. -/
def oneBankPatterns : RegexPatterns :=
  { BANK_ACCOUNT := fun _ => ["111122223333"]
    UPI_ID := fun _ => []
    PHONE_NUMBER := fun _ => []
    URL := fun _ => [] }

/-- C1: every phone candidate is separator-stripped and then
classified by shape: `+91` with total length 13 is kept as-is, bare
`91` with length 12 gains a leading `+`, a `0` trunk prefix with
length 11 has the `0` replaced by `+91`, a bare 10-character value is
prefixed with `+91` exactly when its first character is 6, 7, 8 or 9,
and a candidate matching none of these shapes is dropped (`none`),
with no error. -/
theorem C1_phone_shape_normalization (c : String) :
    (strStarts (stripSeparators c) "+91" = true ∧
        (stripSeparators c).length = 13 →
      normalizePhone c = some (stripSeparators c)) ∧
    (strStarts (stripSeparators c) "91" = true ∧
        (stripSeparators c).length = 12 →
      normalizePhone c = some ("+" ++ stripSeparators c)) ∧
    (strStarts (stripSeparators c) "0" = true ∧
        (stripSeparators c).length = 11 →
      normalizePhone c =
        some ("+91" ++ String.mk ((stripSeparators c).data.drop 1))) ∧
    (strStarts (stripSeparators c) "+" = false ∧
        (stripSeparators c).length = 10 ∧
        ((stripSeparators c).data.headD ' ' = '6' ∨
         (stripSeparators c).data.headD ' ' = '7' ∨
         (stripSeparators c).data.headD ' ' = '8' ∨
         (stripSeparators c).data.headD ' ' = '9') →
      normalizePhone c = some ("+91" ++ stripSeparators c)) ∧
    (¬ (strStarts (stripSeparators c) "+91" = true ∧
          (stripSeparators c).length = 13) ∧
      ¬ (strStarts (stripSeparators c) "91" = true ∧
          (stripSeparators c).length = 12) ∧
      ¬ (strStarts (stripSeparators c) "0" = true ∧
          (stripSeparators c).length = 11) ∧
      ¬ (strStarts (stripSeparators c) "+" = false ∧
          (stripSeparators c).length = 10 ∧
          ((stripSeparators c).data.headD ' ' = '6' ∨
           (stripSeparators c).data.headD ' ' = '7' ∨
           (stripSeparators c).data.headD ' ' = '8' ∨
           (stripSeparators c).data.headD ' ' = '9')) →
      normalizePhone c = none) := by
  unfold normalizePhone classifyPhone
  refine ⟨?_, ?_, ?_, ?_, ?_⟩ <;> intro h
  · rw [if_pos h]
  · rw [if_neg (fun hc => by omega), if_pos h]
  · rw [if_neg (fun hc => by omega), if_neg (fun hc => by omega), if_pos h]
  · rw [if_neg (fun hc => by omega), if_neg (fun hc => by omega),
      if_neg (fun hc => by omega), if_pos h]
  · rw [if_neg h.1, if_neg h.2.1, if_neg h.2.2.1, if_neg h.2.2.2]

/-- Witness for C1 at the spec round-trip input `"0-9876-543-210"`. -/
theorem C1_phone_shape_normalization_witness :
    normalizePhone "0-9876-543-210" = some "+919876543210" := by
  have h := (C1_phone_shape_normalization "0-9876-543-210").2.2.1 (by decide)
  exact h.trans (by decide)

/-- C6: the fallback extractor deduplicates every collection — all
five lists of the result carry no duplicate value — and reporting the
same bank account once with separators and once without yields exactly
one normalized entry. -/
theorem C6_dedup_invariant (patterns : RegexPatterns) (kws : List String)
    (message : Message) (hist : List Message) :
    (regex_extract_intelligence patterns kws message hist).bankAccounts.Nodup ∧
    (regex_extract_intelligence patterns kws message hist).upiIds.Nodup ∧
    (regex_extract_intelligence patterns kws message hist).phoneNumbers.Nodup ∧
    (regex_extract_intelligence patterns kws message hist).phishingLinks.Nodup ∧
    (regex_extract_intelligence patterns kws message hist).suspiciousKeywords.Nodup ∧
    (regex_extract_intelligence dupBankPatterns []
        (Message.mk "scammer" "send money") []).bankAccounts =
      ["1234567890123456"] :=
  ⟨List.nodup_dedup _, List.nodup_dedup _, List.nodup_dedup _,
   List.nodup_dedup _, List.nodup_dedup _, by decide⟩

/-- C5 counterexample: a suspicious keyword present in a history
message (the keyword scan finds it when run on that text) does not
appear in the fallback result, because the history loop of
`_regex_extract_intelligence` never runs the keyword scan. -/
theorem C5_history_keyword_dropped :
    "urgent" ∈ keywordMatches ["urgent"]
      (Message.mk "scammer" "urgent reply now").text ∧
    "urgent" ∉ (regex_extract_intelligence noPatterns ["urgent"]
        (Message.mk "scammer" "hello")
        [Message.mk "scammer" "urgent reply now"]).suspiciousKeywords := by
  decide

/-- C5 amended: the fallback extractor unions the bank, UPI, phone and
link matches of the current message and of every history message, and
the keyword matches of the current message only; each such match is
contained in the corresponding result collection. -/
theorem C5_fallback_union_coverage (patterns : RegexPatterns)
    (kws : List String) (message : Message) (hist : List Message)
    (hm : Message) (a : String) :
    (hm ∈ hist → a ∈ bankMatches patterns hm.text →
      a ∈ (regex_extract_intelligence patterns kws message hist).bankAccounts) ∧
    (hm ∈ hist → a ∈ patterns.UPI_ID hm.text →
      a ∈ (regex_extract_intelligence patterns kws message hist).upiIds) ∧
    (hm ∈ hist → a ∈ phoneMatches patterns hm.text →
      a ∈ (regex_extract_intelligence patterns kws message hist).phoneNumbers) ∧
    (hm ∈ hist → a ∈ patterns.URL hm.text →
      a ∈ (regex_extract_intelligence patterns kws message hist).phishingLinks) ∧
    (a ∈ bankMatches patterns message.text →
      a ∈ (regex_extract_intelligence patterns kws message hist).bankAccounts) ∧
    (a ∈ patterns.UPI_ID message.text →
      a ∈ (regex_extract_intelligence patterns kws message hist).upiIds) ∧
    (a ∈ phoneMatches patterns message.text →
      a ∈ (regex_extract_intelligence patterns kws message hist).phoneNumbers) ∧
    (a ∈ patterns.URL message.text →
      a ∈ (regex_extract_intelligence patterns kws message hist).phishingLinks) ∧
    (a ∈ keywordMatches kws message.text →
      a ∈ (regex_extract_intelligence patterns kws message hist).suspiciousKeywords) := by
  simp only [regex_extract_intelligence, List.mem_dedup, List.mem_append,
    List.mem_flatMap]
  refine ⟨?_, ?_, ?_, ?_, ?_, ?_, ?_, ?_, ?_⟩
  · exact fun hh ha => Or.inr ⟨hm, hh, ha⟩
  · exact fun hh ha => Or.inr ⟨hm, hh, ha⟩
  · exact fun hh ha => Or.inr ⟨hm, hh, ha⟩
  · exact fun hh ha => Or.inr ⟨hm, hh, ha⟩
  · exact fun ha => Or.inl ha
  · exact fun ha => Or.inl ha
  · exact fun ha => Or.inl ha
  · exact fun ha => Or.inl ha
  · exact fun ha => ha

/-- Witness for the amended C5: a bank account reported in a history
message appears in the fallback result. -/
theorem C5_fallback_union_coverage_witness :
    "111122223333" ∈ (regex_extract_intelligence oneBankPatterns []
      (Message.mk "scammer" "hello")
      [Message.mk "scammer" "acct 1111 2222 3333"]).bankAccounts :=
  (C5_fallback_union_coverage oneBankPatterns []
      (Message.mk "scammer" "hello")
      [Message.mk "scammer" "acct 1111 2222 3333"]
      (Message.mk "scammer" "acct 1111 2222 3333") "111122223333").1
    (by decide) (by decide)

/-- C7: every failure outcome of the primary LLM extraction — missing
client, raised call, malformed or empty result — makes
`extract_intelligence` return the regex fallback result instead of
propagating the failure, and a raised extraction step makes
`_extract_intelligence_parallel` return the empty artifact set
instead of aborting the turn. -/
theorem C7_extraction_never_raises (llm : LLMExtraction)
    (patterns : RegexPatterns) (kws : List String) (message : Message)
    (hist : List Message) (r : Except String ExtractedIntelligence) :
    ((llm = none ∨ (∃ e, llm = some (Except.error e)) ∨
        llm = some (Except.ok none)) →
      extract_intelligence llm patterns kws message hist =
        regex_extract_intelligence patterns kws message hist) ∧
    ((∃ e, r = Except.error e) →
      extract_intelligence_parallel r = emptyIntelligence) := by
  constructor
  · rintro (rfl | ⟨e, rfl⟩ | rfl) <;> rfl
  · rintro ⟨e, rfl⟩
    rfl

/-- Witness for C7 at a missing client and a raising extraction step. -/
theorem C7_extraction_never_raises_witness :
    extract_intelligence none noPatterns [] (Message.mk "s" "x") [] =
      regex_extract_intelligence noPatterns [] (Message.mk "s" "x") [] ∧
    extract_intelligence_parallel (Except.error "timeout") =
      emptyIntelligence :=
  ⟨(C7_extraction_never_raises none noPatterns [] (Message.mk "s" "x") []
      (Except.error "timeout")).1 (Or.inl rfl),
   (C7_extraction_never_raises none noPatterns [] (Message.mk "s" "x") []
      (Except.error "timeout")).2 ⟨"timeout", rfl⟩⟩

/-- C8 counterexample: a suspicious keyword extracted from the current
message disappears from the result once that message moves into the
history, so the suspicious-keyword collection is not monotone. -/
theorem C8_keyword_not_monotone :
    "verify" ∈ (regex_extract_intelligence noPatterns ["verify"]
        (Message.mk "scammer" "verify now") []).suspiciousKeywords ∧
    "verify" ∉ (regex_extract_intelligence noPatterns ["verify"]
        (Message.mk "scammer" "ok") [Message.mk "scammer" "verify now"]
        ).suspiciousKeywords := by
  decide

/-- C8 amended: for the bank, UPI, phone and link collections (all
except suspicious keywords), every artifact the fallback extractor
finds for `(m, H)` is still found for `(m2, H ++ [m])`: these four
collections only ever gain members as messages are appended. -/
theorem C8_monotonicity_four_collections (patterns : RegexPatterns)
    (kws : List String) (m m2 : Message) (H : List Message) (a : String) :
    (a ∈ (regex_extract_intelligence patterns kws m H).bankAccounts →
      a ∈ (regex_extract_intelligence patterns kws m2 (H ++ [m])).bankAccounts) ∧
    (a ∈ (regex_extract_intelligence patterns kws m H).upiIds →
      a ∈ (regex_extract_intelligence patterns kws m2 (H ++ [m])).upiIds) ∧
    (a ∈ (regex_extract_intelligence patterns kws m H).phoneNumbers →
      a ∈ (regex_extract_intelligence patterns kws m2 (H ++ [m])).phoneNumbers) ∧
    (a ∈ (regex_extract_intelligence patterns kws m H).phishingLinks →
      a ∈ (regex_extract_intelligence patterns kws m2 (H ++ [m])).phishingLinks) := by
  simp only [regex_extract_intelligence, List.mem_dedup, List.mem_append,
    List.mem_flatMap, List.mem_singleton]
  refine ⟨?_, ?_, ?_, ?_⟩ <;>
    rintro (hcur | ⟨x, hx, ha⟩)
  · exact Or.inr ⟨m, Or.inr rfl, hcur⟩
  · exact Or.inr ⟨x, Or.inl hx, ha⟩
  · exact Or.inr ⟨m, Or.inr rfl, hcur⟩
  · exact Or.inr ⟨x, Or.inl hx, ha⟩
  · exact Or.inr ⟨m, Or.inr rfl, hcur⟩
  · exact Or.inr ⟨x, Or.inl hx, ha⟩
  · exact Or.inr ⟨m, Or.inr rfl, hcur⟩
  · exact Or.inr ⟨x, Or.inl hx, ha⟩

/-- Witness for the amended C8: a bank account extracted from the
current message survives into the next extraction where that message
is history. -/
theorem C8_monotonicity_four_collections_witness :
    "111122223333" ∈ (regex_extract_intelligence oneBankPatterns []
      (Message.mk "s" "later") ([] ++ [Message.mk "s" "acct"])).bankAccounts :=
  (C8_monotonicity_four_collections oneBankPatterns []
      (Message.mk "s" "acct") (Message.mk "s" "later") [] "111122223333").1
    (by decide)

/-- The note list appended by `_add_intelligence_notes`: the truthy
LLM note when present, else the rule-based summary list. -/
def noteListOf (llmNote : Option String) (reason : Option String)
    (d : ExtractedIntelligence) : List String :=
  match llmNote with
  | some n => if n ≠ "" then [n] else fallbackNoteList reason d
  | none => fallbackNoteList reason d

theorem add_intelligence_notes_eq (ln : Option String) (s : SessionState)
    (d : ExtractedIntelligence) :
    add_intelligence_notes ln s d =
      { s with agentNotes :=
          s.agentNotes ++ noteListOf ln s.finalDecisionReason d } := by
  have hg : generate_fallback_notes s d =
      { s with agentNotes :=
          s.agentNotes ++ fallbackNoteList s.finalDecisionReason d } := by
    unfold generate_fallback_notes
    rcases h : fallbackNoteList s.finalDecisionReason d with _ | ⟨n, t⟩
    · simp
    · have ht : t = [] := by
        unfold fallbackNoteList at h
        split_ifs at h
        exact (List.cons_eq_cons.mp h).2.symm
      subst ht
      simp [add_agent_note]
  cases ln with
  | none => simpa [noteListOf] using hg
  | some n =>
      simp only [add_intelligence_notes, noteListOf]
      split_ifs with hn
      · simp [add_agent_note]
      · exact hg

theorem noteListOf_length (ln : Option String) (reason : Option String)
    (d : ExtractedIntelligence) :
    (noteListOf ln reason d).length ≤ 1 := by
  have hf : (fallbackNoteList reason d).length ≤ 1 := by
    unfold fallbackNoteList
    split_ifs <;> simp
  cases ln with
  | none => exact hf
  | some n =>
      simp only [noteListOf]
      split_ifs
      · simp
      · exact hf

/-- C3: a Strategy decision of `shouldEngage = false` with
`goal = WRAP_UP` makes the turn set `conversationEnded`, return no
response, and skip the Response-Generation and Safety-Gate stages. -/
theorem C3_wrap_up_terminates_silently (cfg : Stages) (message : Message)
    (session : SessionState) (d : StrategyDecision)
    (hd : cfg.decide_strategy
        (update_session session message
          (extract_intelligence_parallel cfg.extractionResult)) message = d)
    (he : d.should_engage = false)
    (hg : d.goal = ConversationGoal.WRAP_UP) :
    (process_message cfg message session).response = none ∧
    (process_message cfg message session).session.conversationEnded = true ∧
    (process_message cfg message session).ranGeneration = false ∧
    (process_message cfg message session).ranSafetyGate = false := by
  simp [process_message, hd, he, hg]

/-- Stages that wrap up without engaging, for concrete turns. -/
def wrapUpStages : Stages :=
  { extractionResult := Except.ok emptyIntelligence
    decide_strategy := fun _ _ =>
      ⟨ConversationGoal.WRAP_UP, false, "scammer said goodbye"⟩
    generate_response := fun _ _ _ => none
    validate_response := fun _ => (true, "")
    llmNote := none }

/-- A fresh session with no history, notes, or decision reason. -/
def blankSession : SessionState :=
  { sessionId := "session-1"
    conversationHistory := []
    intelligence := emptyIntelligence
    conversationEnded := false
    finalDecisionReason := none
    agentNotes := [] }

/-- Witness for C3 on a concrete wrap-up turn. -/
theorem C3_wrap_up_terminates_silently_witness :
    (process_message wrapUpStages (Message.mk "scammer" "bye") blankSession).response = none ∧
    (process_message wrapUpStages (Message.mk "scammer" "bye") blankSession).session.conversationEnded = true ∧
    (process_message wrapUpStages (Message.mk "scammer" "bye") blankSession).ranGeneration = false ∧
    (process_message wrapUpStages (Message.mk "scammer" "bye") blankSession).ranSafetyGate = false :=
  C3_wrap_up_terminates_silently wrapUpStages (Message.mk "scammer" "bye")
    blankSession ⟨ConversationGoal.WRAP_UP, false, "scammer said goodbye"⟩
    rfl rfl rfl

/-- C10: a Strategy decision of `shouldEngage = false` with a goal
other than `WRAP_UP` returns no response, leaves `conversationEnded`
and the notes unchanged, and runs none of the later stages. -/
theorem C10_no_engage_frame (cfg : Stages) (message : Message)
    (session : SessionState) (d : StrategyDecision)
    (hd : cfg.decide_strategy
        (update_session session message
          (extract_intelligence_parallel cfg.extractionResult)) message = d)
    (he : d.should_engage = false)
    (hg : d.goal ≠ ConversationGoal.WRAP_UP) :
    (process_message cfg message session).response = none ∧
    (process_message cfg message session).session.conversationEnded =
      session.conversationEnded ∧
    (process_message cfg message session).session.agentNotes =
      session.agentNotes ∧
    (process_message cfg message session).ranGeneration = false ∧
    (process_message cfg message session).ranSafetyGate = false ∧
    (process_message cfg message session).ranNotes = false := by
  simp only [process_message]
  rw [hd]
  simp [he, hg, update_session]

/-- Stages that delay without engaging, for concrete turns. -/
def delayStages : Stages :=
  { extractionResult := Except.ok emptyIntelligence
    decide_strategy := fun _ _ => ⟨ConversationGoal.DELAY, false, "hold"⟩
    generate_response := fun _ _ _ => none
    validate_response := fun _ => (true, "")
    llmNote := none }

/-- Witness for C10 on a concrete non-wrap-up, non-engaging turn. -/
theorem C10_no_engage_frame_witness :
    (process_message delayStages (Message.mk "scammer" "hi") blankSession).response = none ∧
    (process_message delayStages (Message.mk "scammer" "hi") blankSession).session.conversationEnded =
      blankSession.conversationEnded ∧
    (process_message delayStages (Message.mk "scammer" "hi") blankSession).session.agentNotes =
      blankSession.agentNotes ∧
    (process_message delayStages (Message.mk "scammer" "hi") blankSession).ranGeneration = false ∧
    (process_message delayStages (Message.mk "scammer" "hi") blankSession).ranSafetyGate = false ∧
    (process_message delayStages (Message.mk "scammer" "hi") blankSession).ranNotes = false :=
  C10_no_engage_frame delayStages (Message.mk "scammer" "hi") blankSession
    ⟨ConversationGoal.DELAY, false, "hold"⟩ rfl rfl (by decide)

/-- C2: when the safety gate rejects the candidate, the turn discards
the candidate entirely and returns the fixed fallback sentence
verbatim, and the notes gain the one violation note (followed only by
the at-most-one reasoning note of the unconditional note step). -/
theorem C2_safety_gate_override (cfg : Stages) (message : Message)
    (session : SessionState) (d : StrategyDecision) (r err : String)
    (hd : cfg.decide_strategy
        (update_session session message
          (extract_intelligence_parallel cfg.extractionResult)) message = d)
    (he : d.should_engage = true)
    (hr : cfg.generate_response message
        (update_session session message
          (extract_intelligence_parallel cfg.extractionResult)).conversationHistory
        d = some r)
    (hne : r ≠ "")
    (hv : cfg.validate_response r = (false, err)) :
    (process_message cfg message session).response = some fallbackSentence ∧
    ∃ extra : List String,
      (process_message cfg message session).session.agentNotes =
        session.agentNotes ++ ["Safety guard triggered: " ++ err] ++ extra ∧
      extra.length ≤ 1 := by
  simp only [process_message]
  rw [hd, hr]
  simp only [he, respFalsy, hne, hv, add_intelligence_notes_eq,
    update_session, add_agent_note, Option.getD_some, beq_iff_eq,
    if_neg, Bool.true_eq_false, ite_false, ite_true]
  refine ⟨trivial, noteListOf cfg.llmNote session.finalDecisionReason
    (extract_intelligence_parallel cfg.extractionResult), ?_,
    noteListOf_length _ _ _⟩
  split_ifs <;> simp_all

/-- Stages whose candidate response the safety gate rejects. -/
def blockStages : Stages :=
  { extractionResult := Except.ok emptyIntelligence
    decide_strategy := fun _ _ => ⟨ConversationGoal.CONTINUE, true, "go"⟩
    generate_response := fun _ _ _ => some "I am an AI detector"
    validate_response := fun _ => (false, "Contains forbidden phrase")
    llmNote := none }

/-- Witness for C2 on a concrete blocked turn. -/
theorem C2_safety_gate_override_witness :
    (process_message blockStages (Message.mk "scammer" "who are you") blankSession).response =
      some fallbackSentence ∧
    ∃ extra : List String,
      (process_message blockStages (Message.mk "scammer" "who are you") blankSession).session.agentNotes =
        blankSession.agentNotes ++
          ["Safety guard triggered: " ++ "Contains forbidden phrase"] ++ extra ∧
      extra.length ≤ 1 :=
  C2_safety_gate_override blockStages (Message.mk "scammer" "who are you")
    blankSession ⟨ConversationGoal.CONTINUE, true, "go"⟩
    "I am an AI detector" "Contains forbidden phrase" rfl rfl rfl
    (by decide) rfl

/-- C4: a `WRAP_UP` goal with `shouldEngage = true` still runs
Response-Generation; when generation yields no text the turn returns
nothing, skips the gate and leaves `conversationEnded` unchanged;
when generation yields text the gate runs, `conversationEnded`
becomes true, and a non-empty response is returned. -/
theorem C4_wrap_up_engaged_final_message (cfg : Stages) (message : Message)
    (session : SessionState) (d : StrategyDecision)
    (hd : cfg.decide_strategy
        (update_session session message
          (extract_intelligence_parallel cfg.extractionResult)) message = d)
    (he : d.should_engage = true)
    (hg : d.goal = ConversationGoal.WRAP_UP) :
    (process_message cfg message session).ranGeneration = true ∧
    (respFalsy (cfg.generate_response message
        (update_session session message
          (extract_intelligence_parallel cfg.extractionResult)).conversationHistory
        d) = true →
      (process_message cfg message session).response = none ∧
      (process_message cfg message session).session.conversationEnded =
        session.conversationEnded ∧
      (process_message cfg message session).ranSafetyGate = false) ∧
    (respFalsy (cfg.generate_response message
        (update_session session message
          (extract_intelligence_parallel cfg.extractionResult)).conversationHistory
        d) = false →
      (process_message cfg message session).ranSafetyGate = true ∧
      (process_message cfg message session).session.conversationEnded = true ∧
      ∃ resp, (process_message cfg message session).response = some resp ∧
        resp ≠ "") := by
  simp only [process_message]
  rw [hd]
  by_cases hb : respFalsy (cfg.generate_response message
      (update_session session message
        (extract_intelligence_parallel cfg.extractionResult)).conversationHistory
      d) = true
  · simp only [he, hb]
    simp [update_session]
  · have hb2 : respFalsy (cfg.generate_response message
        (update_session session message
          (extract_intelligence_parallel cfg.extractionResult)).conversationHistory
        d) = false := by
      simpa using hb
    rcases hgen : cfg.generate_response message
        (update_session session message
          (extract_intelligence_parallel cfg.extractionResult)).conversationHistory
        d with _ | r
    · rw [hgen] at hb2
      simp [respFalsy] at hb2
    · rw [hgen] at hb2
      have hrne : r ≠ "" := by
        simpa [respFalsy] using hb2
      refine ⟨by simp [he, hgen, hb2], by simp [hb2], fun _ => ?_⟩
      refine ⟨by simp [he, hgen, hb2], ?_, ?_⟩
      · simp [he, hgen, hb2, hg, add_intelligence_notes_eq]
      · refine ⟨if (cfg.validate_response r).1 = false then fallbackSentence
          else r, ?_, ?_⟩
        · simp [he, hgen, hb2]
        · split_ifs
          · decide
          · exact hrne

/-- Stages that engage on a `WRAP_UP` goal and produce one final
closing message. -/
def finalMessageStages : Stages :=
  { extractionResult := Except.ok emptyIntelligence
    decide_strategy := fun _ _ => ⟨ConversationGoal.WRAP_UP, true, "close"⟩
    generate_response := fun _ _ _ => some "Thank you, I will contact my bank."
    validate_response := fun _ => (true, "")
    llmNote := none }

/-- Witness for C4 on a concrete engaged wrap-up turn with text. -/
theorem C4_wrap_up_engaged_final_message_witness :
    (process_message finalMessageStages (Message.mk "scammer" "last chance") blankSession).ranSafetyGate = true ∧
    (process_message finalMessageStages (Message.mk "scammer" "last chance") blankSession).session.conversationEnded = true ∧
    ∃ resp,
      (process_message finalMessageStages (Message.mk "scammer" "last chance") blankSession).response =
        some resp ∧ resp ≠ "" :=
  (C4_wrap_up_engaged_final_message finalMessageStages
      (Message.mk "scammer" "last chance") blankSession
      ⟨ConversationGoal.WRAP_UP, true, "close"⟩ rfl rfl rfl).2.2 (by decide)

/-- Stages of an engaging turn that yields a clean response with no
LLM reasoning note available. -/
def quietStages : Stages :=
  { extractionResult := Except.ok emptyIntelligence
    decide_strategy := fun _ _ => ⟨ConversationGoal.CONTINUE, true, "keep"⟩
    generate_response := fun _ _ _ => some "hello there"
    validate_response := fun _ => (true, "")
    llmNote := none }

/-- C9 counterexample: an engaging turn that produces a response runs
the note step, yet appends no note at all — the rule-based fallback
writes nothing when the decision reason and the listed artifact
collections are empty, so the append is not unconditional. -/
theorem C9_note_not_unconditional :
    (process_message quietStages (Message.mk "scammer" "hi") blankSession).ranNotes = true ∧
    (process_message quietStages (Message.mk "scammer" "hi") blankSession).response =
      some "hello there" ∧
    (process_message quietStages (Message.mk "scammer" "hi") blankSession).session.agentNotes = [] := by
  decide

/-- C9 amended: after the safety gate, the note step appends at most
one note: the external summarization text when it is non-empty, and
otherwise the deterministic fallback note, which joins the stored
decision reason and the extracted values of the bank, phone, UPI
and link collections and is appended only when at least one such
component exists — a session with no reason and no listed artifacts
gains no note. -/
theorem C9_notes_after_gate (cfg : Stages) (message : Message)
    (session : SessionState) (d : StrategyDecision) (r : String)
    (hd : cfg.decide_strategy
        (update_session session message
          (extract_intelligence_parallel cfg.extractionResult)) message = d)
    (he : d.should_engage = true)
    (hr : cfg.generate_response message
        (update_session session message
          (extract_intelligence_parallel cfg.extractionResult)).conversationHistory
        d = some r)
    (hne : r ≠ "")
    (hv : (cfg.validate_response r).1 = true) :
    (process_message cfg message session).session.agentNotes =
      session.agentNotes ++
        noteListOf cfg.llmNote session.finalDecisionReason
          (extract_intelligence_parallel cfg.extractionResult) ∧
    (noteListOf cfg.llmNote session.finalDecisionReason
        (extract_intelligence_parallel cfg.extractionResult)).length ≤ 1 ∧
    (cfg.llmNote = none →
      fallbackNoteParts session.finalDecisionReason
          (extract_intelligence_parallel cfg.extractionResult) = [] →
      (process_message cfg message session).session.agentNotes =
        session.agentNotes) := by
  have hmain : (process_message cfg message session).session.agentNotes =
      session.agentNotes ++
        noteListOf cfg.llmNote session.finalDecisionReason
          (extract_intelligence_parallel cfg.extractionResult) := by
    simp only [process_message]
    rw [hd, hr]
    simp [he, respFalsy, hne, hv, add_intelligence_notes_eq, update_session]
    split_ifs <;> rfl
  refine ⟨hmain, noteListOf_length _ _ _, fun hln hparts => ?_⟩
  rw [hmain, hln]
  simp [noteListOf, fallbackNoteList, hparts]

/-- Stages of an engaging turn whose LLM reasoning note is available. -/
def notedStages : Stages :=
  { extractionResult := Except.ok emptyIntelligence
    decide_strategy := fun _ _ => ⟨ConversationGoal.CONTINUE, true, "keep"⟩
    generate_response := fun _ _ _ => some "okay"
    validate_response := fun _ => (true, "")
    llmNote := some "Scammer used urgency tactics to demand payment." }

/-- Witness for the amended C9 on a concrete turn whose LLM note is
appended. -/
theorem C9_notes_after_gate_witness :
    (process_message notedStages (Message.mk "scammer" "pay now") blankSession).session.agentNotes =
      blankSession.agentNotes ++
        noteListOf notedStages.llmNote blankSession.finalDecisionReason
          (extract_intelligence_parallel notedStages.extractionResult) :=
  (C9_notes_after_gate notedStages (Message.mk "scammer" "pay now")
      blankSession ⟨ConversationGoal.CONTINUE, true, "keep"⟩ "okay"
      rfl rfl rfl (by decide) rfl).1

end HoneyPot
